import Mathlib

/-!
Shallow embedding of the audience verification engine of
Telegram-Push-Marketplace: the enums and row types of `app/models.py`,
the verification run loop `_run_verification` of `app/tasks/verification.py`
(locale ranking, batch scanner, outcome classifier, per-recipient persist
step, run lifecycle), and the two web handlers of `app/main.py` that the
claims touch (`verification_status` and the run-row fragment of
`upload_audience`).

Modelling conventions:
* Database integer columns are `Nat` (they start at 0 and are only ever
  incremented, so they never go negative in any reachable state).
* Wall-clock timestamps are abstract ticks (`Nat`); `datetime.utcnow()`
  becomes the current tick of a counter threaded through the loop.
* The single-bot audience table is a `List Audience`; `db.commit()` of a
  mutated ORM row becomes a pure update of that list / of the run row.
* The Telegram HTTP response `resp.json()` is the structure `TgResponse`;
  the per-call network interaction is an oracle `provider : Nat → TgResponse`
  giving the n-th call's decoded body.
* Python's `while True` loop is modelled with explicit fuel; `none` means
  the fuel ran out (the source loop is unbounded).
* The rate limiter (`time.sleep` on wall-clock spacing, lines 80-83) is
  real-time behaviour and is not part of the state model; the classifier
  driven retry sleep IS recorded, as an `Event.sleep` in the event trace.
-/

/-- Per-recipient verification outcome enum (`VerificationStatus`, app/models.py). -/
inductive VerificationStatus where
  | UNKNOWN
  | OK
  | BLOCKED
  | NOT_STARTED
  | OTHER_ERROR
  deriving DecidableEq, Repr

/-- Run status enum (`VerificationRunStatus`, app/models.py). -/
inductive VerificationRunStatus where
  | RUNNING
  | COMPLETED
  | FAILED
  deriving DecidableEq, Repr

/-- One row of the `audience` table (`Audience`, app/models.py).
`id` is omitted: rows are identified by the unique key `(bot_id, tg_id)`. -/
structure Audience where
  bot_id : Nat
  tg_id : Nat
  locale : String
  verification_status : VerificationStatus
  last_verified_at : Option Nat
  deriving DecidableEq, Repr

/-- One row of the `bot_verification` table (`BotVerification`, app/models.py). -/
structure BotVerification where
  status : VerificationRunStatus
  total_users : Nat
  verified_users : Nat
  ok_count : Nat
  blocked_count : Nat
  not_started_count : Nat
  other_error_count : Nat
  started_at : Option Nat
  finished_at : Option Nat
  last_processed_tg_id : Nat
  eta_seconds : Nat
  deriving DecidableEq, Repr

/-- The `parameters` object of a Telegram Bot API error response. -/
structure TgParameters where
  retry_after : Option Nat
  deriving DecidableEq, Repr

/-- Decoded JSON body of a `sendChatAction` probe response.  `ok` is the
success flag (`data.get("ok")`); `description` and `parameters` are the
optional error fields. -/
structure TgResponse where
  ok : Bool
  description : Option String
  parameters : Option TgParameters
  deriving DecidableEq, Repr

/-- Result of classifying one provider response: either a terminal outcome
to persist, or a transient throttle signal with its delay in seconds. -/
inductive ClassifiedResult where
  | outcome (st : VerificationStatus)
  | retry (seconds : Nat)
  deriving DecidableEq, Repr

/-- Python's `needle in hay.lower()`: case-insensitive (needle as given)
substring containment after lowercasing the haystack. -/
def pyContains (hay needle : String) : Bool :=
  decide (needle.data <:+: hay.data.map Char.toLower)

/-- Outcome classification, transcribed from lines 92-104 of
`app/tasks/verification.py`: `data["ok"]` truthy yields OK; otherwise the
description (missing treated as `""`) is matched, lowercased, against
"blocked", then "chat not found", then "too many requests" (the latter
yielding a retry with `data.get("parameters", {}).get("retry_after", 1)`
seconds); anything else is OTHER_ERROR. -/
def classify (data : TgResponse) : ClassifiedResult :=
  if data.ok then ClassifiedResult.outcome VerificationStatus.OK
  else
    let description := data.description.getD ""
    if pyContains description "blocked" then
      ClassifiedResult.outcome VerificationStatus.BLOCKED
    else if pyContains description "chat not found" then
      ClassifiedResult.outcome VerificationStatus.NOT_STARTED
    else if pyContains description "too many requests" then
      ClassifiedResult.retry (((data.parameters.getD { retry_after := none }).retry_after).getD 1)
    else
      ClassifiedResult.outcome VerificationStatus.OTHER_ERROR

/-- Lowercasing of a string, characterwise (model of Python `str.lower` on
the ASCII descriptions involved here). -/
def lowerStr (s : String) : String :=
  ⟨s.data.map Char.toLower⟩

/-- Case-insensitive substring test as the spec words it (both sides
compared case-insensitively). -/
def containsCI (hay needle : String) : Bool :=
  decide ((lowerStr needle).data <:+: (lowerStr hay).data)

/-- The provider-supplied retry hint, defaulting to 1 second when the
`parameters` object or its `retry_after` field is absent — as the spec
words it. -/
def retryHint (data : TgResponse) : Nat :=
  match data.parameters with
  | none => 1
  | some p =>
    match p.retry_after with
    | none => 1
    | some t => t

/-- The outcome classifier exactly as the specification's decision table
words it (spec section 4.4 / claim C2), to be compared with `classify`. -/
def classifySpec (data : TgResponse) : ClassifiedResult :=
  if data.ok then ClassifiedResult.outcome VerificationStatus.OK
  else if containsCI (data.description.getD "") "blocked" then
    ClassifiedResult.outcome VerificationStatus.BLOCKED
  else if containsCI (data.description.getD "") "chat not found" then
    ClassifiedResult.outcome VerificationStatus.NOT_STARTED
  else if containsCI (data.description.getD "") "too many requests" then
    ClassifiedResult.retry (retryHint data)
  else
    ClassifiedResult.outcome VerificationStatus.OTHER_ERROR

/-- Minimum spacing between provider calls, `REQUEST_INTERVAL_SECONDS = 1 / 15`
(app/tasks/verification.py line 13). -/
def REQUEST_INTERVAL_SECONDS : ℚ := 1 / 15

/-- The fixed locale priority list `LOCALE_PRIORITY`
(app/tasks/verification.py lines 14-38). -/
def LOCALE_PRIORITY : List String :=
  ["ru", "uk", "be", "kk", "uz", "ky", "tg", "hy", "az", "ka", "ro",
   "zh-hans", "zh-hant", "ja", "ko", "id", "ms", "th", "vi", "hi",
   "bn", "ur", "en"]

/-- Rank given to a locale by the SQL `case` expression `locale_order`
(lines 57-61): a listed locale gets its position in `LOCALE_PRIORITY`
(the dict built from `enumerate`), any other value falls to the `else_`
branch `len(LOCALE_PRIORITY) + 1`. -/
def localeRank (l : String) : Nat :=
  match LOCALE_PRIORITY.indexOf? l with
  | some i => i
  | none => LOCALE_PRIORITY.length + 1

/-- The row filter of the batch query (lines 62-67): same bot, outcome
UNKNOWN, and the optional locale filter. -/
def matchesScan (bot : Nat) (locale : Option String) (a : Audience) : Bool :=
  a.bot_id == bot && decide (a.verification_status = VerificationStatus.UNKNOWN) &&
    (match locale with
     | none => true
     | some l => a.locale == l)

/-- The order of `ORDER BY locale_order ASC, tg_id ASC` (line 69): locale
rank ascending, tg_id ascending as tie-break. -/
def scanRel (x y : Audience) : Prop :=
  localeRank x.locale < localeRank y.locale ∨
    (localeRank x.locale = localeRank y.locale ∧ x.tg_id ≤ y.tg_id)

instance : DecidableRel scanRel := fun x y => by
  unfold scanRel
  infer_instance

instance : IsTrans Audience scanRel :=
  ⟨by
    intro a b c h1 h2
    unfold scanRel at h1 h2 ⊢
    omega⟩

instance : IsTotal Audience scanRel :=
  ⟨by
    intro a b
    unfold scanRel
    omega⟩

/-- The batch scanner (lines 56-72): filter UNKNOWN rows of the bot
(optionally locale-scoped), sort by locale rank then tg_id, take at most
`limit` rows (`.limit(200)` at the call site). -/
def scanBatch (rows : List Audience) (bot : Nat) (locale : Option String) (limit : Nat) :
    List Audience :=
  (List.insertionSort scanRel (rows.filter (matchesScan bot locale))).take limit

/-- Observable side effects of one loop iteration: a provider probe call,
a throttle sleep, or a per-recipient commit. -/
inductive Event where
  | probe (tg_id : Nat)
  | sleep (seconds : Nat)
  | commit (tg_id : Nat)
  deriving DecidableEq, Repr

/-- In-flight state of one `_run_verification` invocation: the audience
table, the run row, the number of provider calls made, the event trace,
and the tick clock standing in for `datetime.utcnow()`. -/
structure LoopState where
  rows : List Audience
  v : BotVerification
  calls : Nat
  trace : List Event
  clock : Nat
  deriving Repr

/-- `audience.verification_status = status; audience.last_verified_at = utcnow()`
(lines 105-106) on the row keyed by `(bot_id, tg_id)` — unique per the
table constraint `uq_audience_bot_tg`. -/
def updateAudience (rows : List Audience) (bot tg : Nat) (st : VerificationStatus)
    (now : Nat) : List Audience :=
  rows.map fun r =>
    if r.bot_id = bot ∧ r.tg_id = tg then
      { r with verification_status := st, last_verified_at := some now }
    else r

/-- The counter updates of lines 108-116: `verified_users` always steps by
one, then the if/elif chain steps exactly one of the four per-outcome
counters (the final `else` catches OTHER_ERROR). -/
def bumpCounters (v : BotVerification) (st : VerificationStatus) : BotVerification :=
  let v1 := { v with verified_users := v.verified_users + 1 }
  if st = VerificationStatus.OK then { v1 with ok_count := v1.ok_count + 1 }
  else if st = VerificationStatus.BLOCKED then { v1 with blocked_count := v1.blocked_count + 1 }
  else if st = VerificationStatus.NOT_STARTED then
    { v1 with not_started_count := v1.not_started_count + 1 }
  else { v1 with other_error_count := v1.other_error_count + 1 }

/-- The per-recipient persist step, lines 105-119: write outcome and
timestamp onto the audience row, bump the run counters, advance the
watermark `last_processed_tg_id`, commit. -/
def commitStep (rows : List Audience) (v : BotVerification) (bot : Nat) (a : Audience)
    (st : VerificationStatus) (now : Nat) : List Audience × BotVerification :=
  (updateAudience rows bot a.tg_id st now,
   { bumpCounters v st with last_processed_tg_id := a.tg_id })

/-- One iteration of the `for audience in batch` body (lines 79-119): probe
the recipient (the rate-limiter wait of lines 80-83 is wall-clock only and
not part of the state), classify; on a throttle signal sleep and
`continue` with no state change; on a terminal outcome run the persist
step. -/
def processAudience (provider : Nat → TgResponse) (bot : Nat) (s : LoopState)
    (a : Audience) : LoopState :=
  let resp := provider s.calls
  let s1 : LoopState := { s with calls := s.calls + 1, trace := s.trace ++ [Event.probe a.tg_id] }
  match classify resp with
  | ClassifiedResult.retry t => { s1 with trace := s1.trace ++ [Event.sleep t] }
  | ClassifiedResult.outcome st =>
    let rv := commitStep s1.rows s1.v bot a st s1.clock
    { s1 with
      rows := rv.1
      v := rv.2
      clock := s1.clock + 1
      trace := s1.trace ++ [Event.commit a.tg_id] }

/-- The `while True` scan loop of lines 56-119, with explicit fuel standing
in for the unbounded Python loop (`none` = fuel exhausted).  An empty batch
on a full-scope run sets COMPLETED and the finish timestamp (lines 73-77)
before breaking; an empty batch on a locale-scoped run just breaks. -/
def runBatches (provider : Nat → TgResponse) (bot : Nat) (locale : Option String) :
    Nat → LoopState → Option LoopState
  | 0, _ => none
  | Nat.succ fuel, s =>
    let batch := scanBatch s.rows bot locale 200
    if batch.isEmpty then
      match locale with
      | none =>
        some { s with
          v := { s.v with status := VerificationRunStatus.COMPLETED, finished_at := some s.clock }
          clock := s.clock + 1 }
      | some _ => some s
    else
      runBatches provider bot locale fuel (batch.foldl (processAudience provider bot) s)

/-- A freshly created run row,
`BotVerification(bot_id=bot_id, status=VerificationRunStatus.RUNNING)`
(line 47) with the column defaults of app/models.py. -/
def newRunRow : BotVerification :=
  { status := VerificationRunStatus.RUNNING
    total_users := 0
    verified_users := 0
    ok_count := 0
    blocked_count := 0
    not_started_count := 0
    other_error_count := 0
    started_at := some 0
    finished_at := none
    last_processed_tg_id := 0
    eta_seconds := 0 }

/-- The run row at loop entry, lines 45-51: the existing row if one is
found else a freshly created one, then `status = RUNNING` unconditionally. -/
def startedRun (v0 : Option BotVerification) : BotVerification :=
  { v0.getD newRunRow with status := VerificationRunStatus.RUNNING }

/-- Net result of one `_run_verification` invocation. -/
structure RunResult where
  rows : List Audience
  run : Option BotVerification
  calls : Nat
  trace : List Event
  deriving Repr

/-- `_run_verification(db, bot_id, locale)`, lines 41-119: return untouched
when the bot row is missing (lines 42-44, `botFound` is the truth of that
lookup), otherwise load-or-create the run row, force RUNNING, and drive the
scan loop.  (`decrypt_token`, line 53, only produces the URL credential and
has no modelled effect.) -/
def runVerification (fuel : Nat) (provider : Nat → TgResponse) (botFound : Bool)
    (bot : Nat) (locale : Option String) (rows : List Audience)
    (v0 : Option BotVerification) : Option RunResult :=
  if botFound then
    match runBatches provider bot locale fuel
        { rows := rows, v := startedRun v0, calls := 0, trace := [], clock := 0 } with
    | none => none
    | some s => some { rows := s.rows, run := some s.v, calls := s.calls, trace := s.trace }
  else
    some { rows := rows, run := v0, calls := 0, trace := [] }

/-- Sum of the four per-outcome counters of a run row. -/
def counterSum (v : BotVerification) : Nat :=
  v.ok_count + v.blocked_count + v.not_started_count + v.other_error_count

/-- The run-row consistency invariant of spec section 3:
`verified_users = ok + blocked + not_started + other_error`. -/
def runInvariant (v : BotVerification) : Prop :=
  v.verified_users = counterSum v

/-- One entry of the per-locale breakdown produced by the GROUP BY query of
`verification_status` (app/main.py): `locale, total, ok, blocked, failed`,
where `failed` counts OTHER_ERROR rows. -/
structure LocaleStat where
  locale : String
  total : Nat
  ok : Nat
  blocked : Nat
  failed : Nat
  deriving DecidableEq, Repr

/-- The GROUP BY locale aggregation over the bot's audience rows
(app/main.py, the `locale_stats` raw SQL of `verification_status`).
SQL leaves the group order unspecified; groups are enumerated via `dedup`
of the locales present. -/
def localeStats (rows : List Audience) (bot : Nat) : List LocaleStat :=
  let mine := rows.filter fun a => a.bot_id == bot
  ((mine.map fun a => a.locale).dedup).map fun l =>
    let g := mine.filter fun a => a.locale == l
    { locale := l
      total := g.length
      ok := (g.filter fun a => decide (a.verification_status = VerificationStatus.OK)).length
      blocked := (g.filter fun a => decide (a.verification_status = VerificationStatus.BLOCKED)).length
      failed := (g.filter fun a => decide (a.verification_status = VerificationStatus.OTHER_ERROR)).length }

/-- The JSON body returned by `verification_status` when a run row exists. -/
structure StatusReport where
  status : VerificationRunStatus
  total : Nat
  verified : Nat
  ok : Nat
  blocked : Nat
  not_started : Nat
  other_error : Nat
  eta_seconds : Nat
  locales : List LocaleStat
  deriving DecidableEq, Repr

/-- The three response shapes of `verification_status`: the
token-needs-update short-circuit, the no-run-row `{"status": "NONE"}`
answer, and the full report. -/
inductive StatusResponse where
  | tokenUpdateRequired
  | noRun
  | report (r : StatusReport)
  deriving DecidableEq, Repr

/-- The `verification_status` handler of app/main.py (read-only path after
the ownership checks): short-circuit on `token_needs_update`, answer NONE
when no run row exists, else report the run row's fields with
`eta_seconds = int(max(total_users - verified_users, 0) / 15)` (truncated
division of a non-negative quantity, i.e. the floor) and the per-locale
breakdown. -/
def statusReport (tokenNeedsUpdate : Bool) (vrow : Option BotVerification)
    (rows : List Audience) (bot : Nat) : StatusResponse :=
  if tokenNeedsUpdate then StatusResponse.tokenUpdateRequired
  else
    match vrow with
    | none => StatusResponse.noRun
    | some v =>
      let remaining := v.total_users - v.verified_users
      StatusResponse.report
        { status := v.status
          total := v.total_users
          verified := v.verified_users
          ok := v.ok_count
          blocked := v.blocked_count
          not_started := v.not_started_count
          other_error := v.other_error_count
          eta_seconds := remaining / 15
          locales := localeStats rows bot }

/-- The run-row fragment of `upload_audience` (app/main.py lines 643-658),
evaluated after the new audience rows are committed (`rows` is the
post-insert table): when at least one row was accepted, recompute
`total_users` and `eta_seconds` and either create the run row — with
`status=VerificationRunStatus.FAILED` and zeroed counter defaults — or
update the existing one. -/
def uploadRunRow (rows : List Audience) (bot : Nat) (accepted : Nat)
    (v0 : Option BotVerification) : Option BotVerification :=
  if accepted == 0 then v0
  else
    let total_users := (rows.filter fun a => a.bot_id == bot).length
    let eta := total_users / 15
    match v0 with
    | none =>
      some { status := VerificationRunStatus.FAILED
             total_users := total_users
             verified_users := 0
             ok_count := 0
             blocked_count := 0
             not_started_count := 0
             other_error_count := 0
             started_at := some 0
             finished_at := none
             last_processed_tg_id := 0
             eta_seconds := eta }
    | some v => some { v with total_users := total_users, eta_seconds := eta }

/-- Number of persisted recipients of a bot with a given locale. -/
def countLocale (rows : List Audience) (bot : Nat) (l : String) : Nat :=
  (rows.filter fun a => a.bot_id == bot && a.locale == l).length

/-- Number of persisted recipients of a bot with a given locale and a given
verification outcome. -/
def countLocaleStatus (rows : List Audience) (bot : Nat) (l : String)
    (st : VerificationStatus) : Nat :=
  (rows.filter fun a =>
    a.bot_id == bot && a.locale == l && decide (a.verification_status = st)).length

/-- Concrete audience table used to test the per-locale breakdown: two
NOT_STARTED recipients and one OK recipient of bot 1, all locale "en". -/
def c9rows : List Audience :=
  [⟨1, 11, "en", VerificationStatus.NOT_STARTED, none⟩,
   ⟨1, 12, "en", VerificationStatus.NOT_STARTED, none⟩,
   ⟨1, 13, "en", VerificationStatus.OK, none⟩]

/-! ## Helper lemmas -/

theorem containsCI_eq_pyContains (hay needle : String)
    (h : needle.data.map Char.toLower = needle.data) :
    containsCI hay needle = pyContains hay needle := by
  simp only [containsCI, pyContains, lowerStr, h]

theorem retryHint_eq (ok : Bool) (desc : Option String) (params : Option TgParameters) :
    retryHint ⟨ok, desc, params⟩ =
      ((params.getD { retry_after := none }).retry_after).getD 1 := by
  cases params with
  | none => rfl
  | some p =>
    obtain ⟨ra⟩ := p
    cases ra <;> rfl

theorem matchesScan_iff (bot : Nat) (loc : Option String) (a : Audience) :
    matchesScan bot loc a = true ↔
      (a.bot_id = bot ∧ a.verification_status = VerificationStatus.UNKNOWN ∧
        ∀ l, loc = some l → a.locale = l) := by
  cases loc with
  | none => simp [matchesScan]
  | some l =>
    simp only [matchesScan, Bool.and_eq_true, beq_iff_eq, decide_eq_true_eq,
      Option.some.injEq]
    constructor
    · rintro ⟨⟨h1, h2⟩, h3⟩
      exact ⟨h1, h2, fun l' hl => hl ▸ h3⟩
    · rintro ⟨h1, h2, h3⟩
      exact ⟨⟨h1, h2⟩, h3 l rfl⟩

theorem bumpCounters_status (v : BotVerification) (st : VerificationStatus) :
    (bumpCounters v st).status = v.status := by
  cases st <;> rfl

theorem bumpCounters_finished_at (v : BotVerification) (st : VerificationStatus) :
    (bumpCounters v st).finished_at = v.finished_at := by
  cases st <;> rfl

theorem processAudience_run_pres (p : Nat → TgResponse) (bot : Nat) (s : LoopState)
    (a : Audience) :
    (processAudience p bot s a).v.status = s.v.status ∧
      (processAudience p bot s a).v.finished_at = s.v.finished_at := by
  unfold processAudience
  dsimp only
  cases classify (p s.calls) with
  | retry t => exact ⟨rfl, rfl⟩
  | outcome st =>
    exact ⟨bumpCounters_status s.v st, bumpCounters_finished_at s.v st⟩

theorem foldl_run_pres (p : Nat → TgResponse) (bot : Nat) (batch : List Audience) :
    ∀ s : LoopState,
      (batch.foldl (processAudience p bot) s).v.status = s.v.status ∧
        (batch.foldl (processAudience p bot) s).v.finished_at = s.v.finished_at := by
  induction batch with
  | nil => exact fun s => ⟨rfl, rfl⟩
  | cons a t ih =>
    intro s
    simp only [List.foldl_cons]
    obtain ⟨h1, h2⟩ := ih (processAudience p bot s a)
    obtain ⟨g1, g2⟩ := processAudience_run_pres p bot s a
    exact ⟨h1.trans g1, h2.trans g2⟩

theorem runBatches_full_completes (p : Nat → TgResponse) (bot : Nat) :
    ∀ (n : Nat) (s s' : LoopState), runBatches p bot none n s = some s' →
      s'.v.status = VerificationRunStatus.COMPLETED ∧ ∃ t, s'.v.finished_at = some t := by
  intro n
  induction n with
  | zero =>
    intro s s' h
    exact absurd h (by simp [runBatches])
  | succ n ih =>
    intro s s' h
    simp only [runBatches] at h
    split at h
    · obtain rfl := Option.some_inj.mp h
      exact ⟨rfl, ⟨s.clock, rfl⟩⟩
    · exact ih _ _ h

theorem runBatches_locale_pres (p : Nat → TgResponse) (bot : Nat) (l : String) :
    ∀ (n : Nat) (s s' : LoopState), runBatches p bot (some l) n s = some s' →
      s'.v.status = s.v.status ∧ s'.v.finished_at = s.v.finished_at := by
  intro n
  induction n with
  | zero =>
    intro s s' h
    exact absurd h (by simp [runBatches])
  | succ n ih =>
    intro s s' h
    simp only [runBatches] at h
    split at h
    · obtain rfl := Option.some_inj.mp h
      exact ⟨rfl, rfl⟩
    · obtain ⟨h1, h2⟩ := ih _ _ h
      obtain ⟨g1, g2⟩ := foldl_run_pres p bot (scanBatch s.rows bot (some l) 200) s
      exact ⟨h1.trans g1, h2.trans g2⟩

theorem runVerification_true_eq (fuel : Nat) (p : Nat → TgResponse) (bot : Nat)
    (loc : Option String) (rows : List Audience) (v0 : Option BotVerification) :
    runVerification fuel p true bot loc rows v0 =
      match runBatches p bot loc fuel
          { rows := rows, v := startedRun v0, calls := 0, trace := [], clock := 0 } with
      | none => none
      | some s => some { rows := s.rows, run := some s.v, calls := s.calls, trace := s.trace } :=
  rfl

theorem localeRank_get : ∀ i : Fin LOCALE_PRIORITY.length,
    localeRank (LOCALE_PRIORITY.get i) = i.val := by
  decide

theorem localeRank_unlisted {y : String} (h : y ∉ LOCALE_PRIORITY) :
    localeRank y = LOCALE_PRIORITY.length + 1 := by
  have hnone : LOCALE_PRIORITY.indexOf? y = none := by
    rw [List.indexOf?_eq_none_iff]
    intro x hx
    simp only [beq_iff_eq]
    exact fun e => h (e ▸ hx)
  simp only [localeRank, hnone]

theorem localeRank_listed_lt {x : String} (h : x ∈ LOCALE_PRIORITY) :
    localeRank x < LOCALE_PRIORITY.length := by
  obtain ⟨i, hi⟩ := List.mem_iff_get.mp h
  rw [← hi, localeRank_get i]
  exact i.isLt

/-! ## Claim theorems -/

/-- Claim C2: the outcome classifier of `_run_verification` (lines 92-104)
agrees with the spec's decision table on every provider response — ok
yields OK; otherwise "blocked" / "chat not found" / "too many requests"
(case-insensitive substrings, missing description read as "") are tried in
that order, throttling carrying the provider retry hint with default 1 —
together with the spec's literal classifier table rows. -/
theorem classifier_decision_table :
    (∀ d : TgResponse, classify d = classifySpec d) ∧
    classify ⟨true, none, none⟩ = ClassifiedResult.outcome VerificationStatus.OK ∧
    classify ⟨false, some "Forbidden: bot was blocked by the user", none⟩ =
      ClassifiedResult.outcome VerificationStatus.BLOCKED ∧
    classify ⟨false, some "Bad Request: chat not found", none⟩ =
      ClassifiedResult.outcome VerificationStatus.NOT_STARTED ∧
    classify ⟨false, some "Too Many Requests: retry after 3", some ⟨some 3⟩⟩ =
      ClassifiedResult.retry 3 ∧
    classify ⟨false, some "Too Many Requests: retry after 3", none⟩ =
      ClassifiedResult.retry 1 ∧
    classify ⟨false, some "Bad Request: something else", none⟩ =
      ClassifiedResult.outcome VerificationStatus.OTHER_ERROR ∧
    classify ⟨false, none, none⟩ =
      ClassifiedResult.outcome VerificationStatus.OTHER_ERROR := by
  refine ⟨?_, by decide, by decide, by decide, by decide, by decide, by decide, by decide⟩
  intro d
  obtain ⟨ok, desc, params⟩ := d
  cases ok with
  | true => rfl
  | false =>
    have hb : ("blocked" : String).data.map Char.toLower = ("blocked" : String).data := by
      decide
    have hc : ("chat not found" : String).data.map Char.toLower =
        ("chat not found" : String).data := by decide
    have ht : ("too many requests" : String).data.map Char.toLower =
        ("too many requests" : String).data := by decide
    simp only [classify, classifySpec,
      containsCI_eq_pyContains _ _ hb, containsCI_eq_pyContains _ _ hc,
      containsCI_eq_pyContains _ _ ht, retryHint_eq]

/-- Claim C5: the locale ranking of the `locale_order` SQL case expression
is total and order-preserving — a listed locale ranks at its list position,
positions earlier in `LOCALE_PRIORITY` rank strictly lower, and every
unlisted locale ranks strictly above every listed one (totality is by
construction: `localeRank` is a total function on `String`). -/
theorem locale_rank_order :
    (∀ i : Fin LOCALE_PRIORITY.length, localeRank (LOCALE_PRIORITY.get i) = i.val) ∧
    (∀ i j : Fin LOCALE_PRIORITY.length, i < j →
      localeRank (LOCALE_PRIORITY.get i) < localeRank (LOCALE_PRIORITY.get j)) ∧
    (∀ y, y ∉ LOCALE_PRIORITY → ∀ x ∈ LOCALE_PRIORITY, localeRank x < localeRank y) := by
  refine ⟨localeRank_get, ?_, ?_⟩
  · intro i j hij
    rw [localeRank_get i, localeRank_get j]
    exact hij
  · intro y hy x hx
    rw [localeRank_unlisted hy]
    exact lt_of_lt_of_le (localeRank_listed_lt hx) (Nat.le_succ _)

theorem locale_rank_order_witness :
    localeRank (LOCALE_PRIORITY.get ⟨0, by decide⟩) <
      localeRank (LOCALE_PRIORITY.get ⟨1, by decide⟩) ∧
    localeRank "ru" < localeRank "xx" :=
  ⟨locale_rank_order.2.1 ⟨0, by decide⟩ ⟨1, by decide⟩ (by decide),
   locale_rank_order.2.2 "xx" (by decide) "ru" (by decide)⟩

/-- Claim C4: every batch returned by the scanner query (lines 56-72)
contains only UNKNOWN recipients of the bot (locale-matching when a filter
is given), holds at most 200 rows, is ordered by locale rank ascending with
tg_id ascending as tie-break, is empty exactly when no matching UNKNOWN
recipient remains, and an empty batch terminates the run loop. -/
theorem scan_batch_contract (rows : List Audience) (bot : Nat) (loc : Option String) :
    (∀ a ∈ scanBatch rows bot loc 200,
       a.bot_id = bot ∧ a.verification_status = VerificationStatus.UNKNOWN ∧
         ∀ l, loc = some l → a.locale = l) ∧
    (scanBatch rows bot loc 200).length ≤ 200 ∧
    (scanBatch rows bot loc 200).Pairwise (fun x y =>
       localeRank x.locale < localeRank y.locale ∨
         (localeRank x.locale = localeRank y.locale ∧ x.tg_id ≤ y.tg_id)) ∧
    (scanBatch rows bot loc 200 = [] ↔
       ∀ a ∈ rows, ¬(a.bot_id = bot ∧ a.verification_status = VerificationStatus.UNKNOWN ∧
         ∀ l, loc = some l → a.locale = l)) ∧
    (∀ (p : Nat → TgResponse) (s : LoopState) (n : Nat),
       scanBatch s.rows bot loc 200 = [] → (runBatches p bot loc (n + 1) s).isSome = true) := by
  refine ⟨?_, ?_, ?_, ?_, ?_⟩
  · intro a ha
    have h1 : a ∈ List.insertionSort scanRel (rows.filter (matchesScan bot loc)) :=
      List.mem_of_mem_take ha
    have h2 := (List.mem_insertionSort scanRel).mp h1
    exact (matchesScan_iff bot loc a).mp (List.mem_filter.mp h2).2
  · exact List.length_take_le _ _
  · have hs := List.sorted_insertionSort scanRel (rows.filter (matchesScan bot loc))
    have hp := List.Pairwise.sublist (List.take_sublist 200 _) hs
    exact hp.imp (fun h => h)
  · have key : scanBatch rows bot loc 200 = [] ↔ rows.filter (matchesScan bot loc) = [] := by
      unfold scanBatch
      rw [List.take_eq_nil_iff]
      constructor
      · rintro (h | h)
        · exact absurd h (by decide)
        · have hl := List.length_insertionSort scanRel (rows.filter (matchesScan bot loc))
          rw [h, List.length_nil] at hl
          exact List.length_eq_zero.mp hl.symm
      · intro h
        rw [h]
        exact Or.inr rfl
    rw [key, List.filter_eq_nil_iff]
    constructor
    · intro h a ha hcond
      exact h a ha ((matchesScan_iff bot loc a).mpr hcond)
    · intro h a ha hm
      exact h a ha ((matchesScan_iff bot loc a).mp hm)
  · intro p s n h
    cases loc with
    | none => simp [runBatches, h]
    | some l => simp [runBatches, h]

theorem scan_batch_contract_witness :
    ((⟨1, 5, "ru", VerificationStatus.UNKNOWN, none⟩ : Audience).bot_id = 1 ∧
      (⟨1, 5, "ru", VerificationStatus.UNKNOWN, none⟩ : Audience).verification_status =
        VerificationStatus.UNKNOWN ∧
      ∀ l, (none : Option String) = some l →
        (⟨1, 5, "ru", VerificationStatus.UNKNOWN, none⟩ : Audience).locale = l) ∧
    (runBatches (fun _ => ⟨true, none, none⟩) 1 none 1
      { rows := [], v := newRunRow, calls := 0, trace := [], clock := 0 }).isSome = true :=
  ⟨(scan_batch_contract [⟨1, 5, "ru", VerificationStatus.UNKNOWN, none⟩] 1 none).1 _ (by decide),
   (scan_batch_contract [] 1 none).2.2.2.2 (fun _ => ⟨true, none, none⟩)
     { rows := [], v := newRunRow, calls := 0, trace := [], clock := 0 } 0 (by decide)⟩

/-- Claim C3: every triggered run forces its run row to RUNNING at loop
entry (lines 45-51); a full-scope run that terminates ends with status
COMPLETED and a finish timestamp, reached exactly at the empty unfiltered
batch (lines 73-77); a locale-scoped run that exhausts its batches
terminates with the status it entered the loop with (RUNNING) and its
finish timestamp untouched — it never sets COMPLETED or `finished_at`. -/
theorem run_lifecycle :
    (∀ v0 : Option BotVerification, (startedRun v0).status = VerificationRunStatus.RUNNING) ∧
    (∀ (fuel : Nat) (p : Nat → TgResponse) (bot : Nat) (rows : List Audience)
       (v0 : Option BotVerification) (r : RunResult),
       runVerification fuel p true bot none rows v0 = some r →
       ∃ v, r.run = some v ∧ v.status = VerificationRunStatus.COMPLETED ∧
         ∃ t, v.finished_at = some t) ∧
    (∀ (fuel : Nat) (p : Nat → TgResponse) (bot : Nat) (l : String) (rows : List Audience)
       (v0 : Option BotVerification) (r : RunResult),
       runVerification fuel p true bot (some l) rows v0 = some r →
       ∃ v, r.run = some v ∧ v.status = VerificationRunStatus.RUNNING ∧
         v.finished_at = (v0.getD newRunRow).finished_at) := by
  refine ⟨fun _ => rfl, ?_, ?_⟩
  · intro fuel p bot rows v0 r h
    rw [runVerification_true_eq] at h
    cases heq : runBatches p bot none fuel
        { rows := rows, v := startedRun v0, calls := 0, trace := [], clock := 0 } with
    | none =>
      rw [heq] at h
      exact absurd h (by simp)
    | some s =>
      rw [heq] at h
      obtain rfl := Option.some_inj.mp h.symm
      obtain ⟨h1, t, h2⟩ := runBatches_full_completes p bot fuel _ _ heq
      exact ⟨s.v, rfl, h1, t, h2⟩
  · intro fuel p bot l rows v0 r h
    rw [runVerification_true_eq] at h
    cases heq : runBatches p bot (some l) fuel
        { rows := rows, v := startedRun v0, calls := 0, trace := [], clock := 0 } with
    | none =>
      rw [heq] at h
      exact absurd h (by simp)
    | some s =>
      rw [heq] at h
      obtain rfl := Option.some_inj.mp h.symm
      obtain ⟨h1, h2⟩ := runBatches_locale_pres p bot l fuel _ _ heq
      exact ⟨s.v, rfl, h1, h2⟩

theorem run_lifecycle_witness :
    (startedRun none).status = VerificationRunStatus.RUNNING ∧
    (∃ v, (RunResult.mk []
        (some { newRunRow with status := VerificationRunStatus.COMPLETED, finished_at := some 0 })
        0 []).run = some v ∧
      v.status = VerificationRunStatus.COMPLETED ∧ ∃ t, v.finished_at = some t) ∧
    (∃ v, (RunResult.mk [] (some (startedRun none)) 0 []).run = some v ∧
      v.status = VerificationRunStatus.RUNNING ∧
      v.finished_at = ((none : Option BotVerification).getD newRunRow).finished_at) :=
  ⟨run_lifecycle.1 none,
   run_lifecycle.2.1 1 (fun _ => ⟨true, none, none⟩) 1 [] none _ rfl,
   run_lifecycle.2.2 1 (fun _ => ⟨true, none, none⟩) 1 "ru" [] none _ rfl⟩

/-- Claim C1: each per-recipient persist step (lines 105-119) increments
`verified_users` by one and exactly one of the four per-outcome counters by
one (shown by the full record equation for each terminal classification),
hence it preserves `verified_users = ok + blocked + not_started +
other_error`; the invariant holds of the all-zero freshly created run row,
is untouched by the RUNNING flip at loop entry, and is preserved by every
loop iteration (the retry branch changes no counter at all). -/
theorem persist_step_counter_invariant :
    runInvariant newRunRow ∧
    (∀ v0 : Option BotVerification,
       runInvariant (v0.getD newRunRow) → runInvariant (startedRun v0)) ∧
    (∀ (rows : List Audience) (v : BotVerification) (bot : Nat) (a : Audience)
       (st : VerificationStatus) (now : Nat),
       (commitStep rows v bot a st now).2.verified_users = v.verified_users + 1 ∧
       counterSum (commitStep rows v bot a st now).2 = counterSum v + 1) ∧
    (∀ (rows : List Audience) (v : BotVerification) (bot : Nat) (a : Audience) (now : Nat),
       (commitStep rows v bot a VerificationStatus.OK now).2 =
         { v with verified_users := v.verified_users + 1, ok_count := v.ok_count + 1,
                  last_processed_tg_id := a.tg_id } ∧
       (commitStep rows v bot a VerificationStatus.BLOCKED now).2 =
         { v with verified_users := v.verified_users + 1, blocked_count := v.blocked_count + 1,
                  last_processed_tg_id := a.tg_id } ∧
       (commitStep rows v bot a VerificationStatus.NOT_STARTED now).2 =
         { v with verified_users := v.verified_users + 1,
                  not_started_count := v.not_started_count + 1,
                  last_processed_tg_id := a.tg_id } ∧
       (commitStep rows v bot a VerificationStatus.OTHER_ERROR now).2 =
         { v with verified_users := v.verified_users + 1,
                  other_error_count := v.other_error_count + 1,
                  last_processed_tg_id := a.tg_id }) ∧
    (∀ (rows : List Audience) (v : BotVerification) (bot : Nat) (a : Audience)
       (st : VerificationStatus) (now : Nat),
       runInvariant v → runInvariant (commitStep rows v bot a st now).2) ∧
    (∀ (p : Nat → TgResponse) (bot : Nat) (s : LoopState) (a : Audience),
       runInvariant s.v → runInvariant (processAudience p bot s a).v) := by
  refine ⟨rfl, ?_, ?_, ?_, ?_, ?_⟩
  · intro v0 h
    exact h
  · intro rows v bot a st now
    cases st <;> simp [commitStep, bumpCounters, counterSum] <;> omega
  · intro rows v bot a now
    exact ⟨rfl, rfl, rfl, rfl⟩
  · intro rows v bot a st now h
    unfold runInvariant counterSum at h ⊢
    cases st <;> simp [commitStep, bumpCounters] <;> omega
  · intro p bot s a h
    unfold processAudience
    dsimp only
    cases classify (p s.calls) with
    | retry t => exact h
    | outcome st =>
      unfold runInvariant counterSum at h ⊢
      cases st <;> simp [commitStep, bumpCounters] <;> omega

theorem persist_step_counter_invariant_witness :
    runInvariant (commitStep [] newRunRow 1
      ⟨1, 2, "ru", VerificationStatus.UNKNOWN, none⟩ VerificationStatus.OK 0).2 :=
  persist_step_counter_invariant.2.2.2.2.1 [] newRunRow 1
    ⟨1, 2, "ru", VerificationStatus.UNKNOWN, none⟩ VerificationStatus.OK 0
    persist_step_counter_invariant.1

/-- Claim C6: a probe response classified as throttling makes the loop
iteration sleep the classifier's retry delay and move on with no persisted
mutation — the iteration is exactly the probe plus the sleep: the audience
table (so the recipient stays UNKNOWN with no timestamp), the run row (all
counters) and the watermark are those of the incoming state, and no commit
event is emitted. -/
theorem retry_leaves_state_unchanged (p : Nat → TgResponse) (bot : Nat) (s : LoopState)
    (a : Audience) (t : Nat) (h : classify (p s.calls) = ClassifiedResult.retry t) :
    processAudience p bot s a =
      { s with calls := s.calls + 1,
               trace := s.trace ++ [Event.probe a.tg_id, Event.sleep t] } := by
  unfold processAudience
  dsimp only
  rw [h]
  simp

theorem retry_leaves_state_unchanged_witness :
    processAudience
        (fun _ => ⟨false, some "Too Many Requests: retry after 3", some ⟨some 3⟩⟩) 1
        { rows := [⟨1, 9, "en", VerificationStatus.UNKNOWN, none⟩], v := newRunRow,
          calls := 0, trace := [], clock := 0 }
        ⟨1, 9, "en", VerificationStatus.UNKNOWN, none⟩ =
      { rows := [⟨1, 9, "en", VerificationStatus.UNKNOWN, none⟩], v := newRunRow,
        calls := 1, trace := [Event.probe 9, Event.sleep 3], clock := 0 } :=
  retry_leaves_state_unchanged
    (fun _ => ⟨false, some "Too Many Requests: retry after 3", some ⟨some 3⟩⟩) 1
    { rows := [⟨1, 9, "en", VerificationStatus.UNKNOWN, none⟩], v := newRunRow,
      calls := 0, trace := [], clock := 0 }
    ⟨1, 9, "en", VerificationStatus.UNKNOWN, none⟩ 3 (by decide)

/-- Claim C7: re-running a full verification on a bot whose previous full
run completed and whose recipients are all already classified (none left
UNKNOWN) terminates on the very first scan with zero provider calls, an
empty event trace, the audience table untouched, every counter of the run
row unchanged, and status COMPLETED again. -/
theorem full_rerun_idempotent (n : Nat) (p : Nat → TgResponse) (bot : Nat)
    (rows : List Audience) (v : BotVerification)
    (hdone : ∀ a ∈ rows, a.bot_id = bot → a.verification_status ≠ VerificationStatus.UNKNOWN)
    (_hv : v.status = VerificationRunStatus.COMPLETED) :
    ∃ r, runVerification (n + 1) p true bot none rows (some v) = some r ∧
      r.calls = 0 ∧ r.trace = [] ∧ r.rows = rows ∧
      ∃ v', r.run = some v' ∧
        v'.verified_users = v.verified_users ∧ v'.ok_count = v.ok_count ∧
        v'.blocked_count = v.blocked_count ∧ v'.not_started_count = v.not_started_count ∧
        v'.other_error_count = v.other_error_count ∧
        v'.status = VerificationRunStatus.COMPLETED := by
  have hfil : rows.filter (matchesScan bot none) = [] := by
    rw [List.filter_eq_nil_iff]
    intro a ha hm
    obtain ⟨h1, h2, _⟩ := (matchesScan_iff bot none a).mp hm
    exact hdone a ha h1 h2
  have hscan : scanBatch rows bot none 200 = [] := by
    unfold scanBatch
    rw [hfil]
    rfl
  refine ⟨{ rows := rows, run := some { startedRun (some v) with status := VerificationRunStatus.COMPLETED, finished_at := some 0 }, calls := 0, trace := [] }, ?_, rfl, rfl, rfl,
          ⟨{ startedRun (some v) with status := VerificationRunStatus.COMPLETED, finished_at := some 0 },
            rfl, rfl, rfl, rfl, rfl, rfl, rfl⟩⟩
  rw [runVerification_true_eq]
  simp only [runBatches]
  rw [hscan]
  rfl

theorem full_rerun_idempotent_witness :
    ∃ r, runVerification 1 (fun _ => ⟨true, none, none⟩) true 1 none
        [⟨1, 7, "ru", VerificationStatus.OK, some 0⟩]
        (some { newRunRow with status := VerificationRunStatus.COMPLETED, verified_users := 1, ok_count := 1, finished_at := some 9 }) = some r ∧
      r.calls = 0 ∧ r.trace = [] ∧ r.rows = [⟨1, 7, "ru", VerificationStatus.OK, some 0⟩] ∧
      ∃ v', r.run = some v' ∧
        v'.verified_users = ({ newRunRow with status := VerificationRunStatus.COMPLETED, verified_users := 1, ok_count := 1, finished_at := some 9 } : BotVerification).verified_users ∧
        v'.ok_count = ({ newRunRow with status := VerificationRunStatus.COMPLETED, verified_users := 1, ok_count := 1, finished_at := some 9 } : BotVerification).ok_count ∧
        v'.blocked_count = ({ newRunRow with status := VerificationRunStatus.COMPLETED, verified_users := 1, ok_count := 1, finished_at := some 9 } : BotVerification).blocked_count ∧
        v'.not_started_count = ({ newRunRow with status := VerificationRunStatus.COMPLETED, verified_users := 1, ok_count := 1, finished_at := some 9 } : BotVerification).not_started_count ∧
        v'.other_error_count = ({ newRunRow with status := VerificationRunStatus.COMPLETED, verified_users := 1, ok_count := 1, finished_at := some 9 } : BotVerification).other_error_count ∧
        v'.status = VerificationRunStatus.COMPLETED :=
  full_rerun_idempotent 0 (fun _ => ⟨true, none, none⟩) 1
    [⟨1, 7, "ru", VerificationStatus.OK, some 0⟩]
    { newRunRow with status := VerificationRunStatus.COMPLETED, verified_users := 1, ok_count := 1, finished_at := some 9 }
    (by decide) rfl

/-- Claim C8: the status query computes
`eta_seconds = floor(max(total_users - verified_users, 0) / 15)` (`Nat`
subtraction is Python's `max(total - verified, 0)`, `Nat` division the
floor of `int(remaining / 15)`); in particular total 150 and verified 75
give 5, verified at or above total gives 0; 15 is the reciprocal of the
rate limiter's `REQUEST_INTERVAL_SECONDS = 1/15` spacing. -/
theorem eta_seconds_formula (rows : List Audience) (bot : Nat) (v : BotVerification)
    (r : StatusReport)
    (h : statusReport false (some v) rows bot = StatusResponse.report r) :
    r.eta_seconds = (v.total_users - v.verified_users) / 15 ∧
    (⌊((v.total_users - v.verified_users : Nat) : ℚ) / 15⌋₊ = r.eta_seconds) ∧
    (v.total_users = 150 → v.verified_users = 75 → r.eta_seconds = 5) ∧
    (v.total_users ≤ v.verified_users → r.eta_seconds = 0) ∧
    (1 / REQUEST_INTERVAL_SECONDS : ℚ) = 15 := by
  have hr : r =
      { status := v.status
        total := v.total_users
        verified := v.verified_users
        ok := v.ok_count
        blocked := v.blocked_count
        not_started := v.not_started_count
        other_error := v.other_error_count
        eta_seconds := (v.total_users - v.verified_users) / 15
        locales := localeStats rows bot } := by
    have h2 : StatusResponse.report
        { status := v.status
          total := v.total_users
          verified := v.verified_users
          ok := v.ok_count
          blocked := v.blocked_count
          not_started := v.not_started_count
          other_error := v.other_error_count
          eta_seconds := (v.total_users - v.verified_users) / 15
          locales := localeStats rows bot } = StatusResponse.report r := h
    injection h2 with h3
    exact h3.symm
  subst hr
  refine ⟨rfl, ?_, ?_, ?_, ?_⟩
  · rw [show ((15 : ℚ)) = ((15 : ℕ) : ℚ) by norm_num, Nat.floor_div_nat, Nat.floor_natCast]
  · intro h1 h2
    simp only [h1, h2]
  · intro hle
    simp only [Nat.sub_eq_zero_of_le hle, Nat.zero_div]
  · norm_num [REQUEST_INTERVAL_SECONDS]

theorem eta_seconds_formula_witness :
    ∃ r, statusReport false
        (some { newRunRow with total_users := 150, verified_users := 75 }) [] 2 =
        StatusResponse.report r ∧ r.eta_seconds = 5 :=
  ⟨_, rfl,
    (eta_seconds_formula [] 2 { newRunRow with total_users := 150, verified_users := 75 }
      _ rfl).2.2.1 rfl rfl⟩

/-- Claim C9 counterexample: the per-locale breakdown of the status query
carries NO not_started sub-count.  On `c9rows` (bot 1, locale "en": two
NOT_STARTED, one OK) the breakdown is the single entry
`{en, total 3, ok 1, blocked 0, failed 0}`, and none of its numeric fields
equals the locale's NOT_STARTED count 2 — so the claimed per-locale
not_started sub-count is not reported anywhere. -/
theorem locale_breakdown_no_not_started :
    countLocaleStatus c9rows 1 "en" VerificationStatus.NOT_STARTED = 2 ∧
    localeStats c9rows 1 =
      [{ locale := "en", total := 3, ok := 1, blocked := 0, failed := 0 }] ∧
    (localeStats c9rows 1).all (fun e =>
      decide (e.total ≠ 2) && decide (e.ok ≠ 2) && decide (e.blocked ≠ 2) &&
        decide (e.failed ≠ 2)) = true := by
  decide

/-- Claim C9, amended: the status query's per-locale breakdown groups the
bot's persisted recipients by locale and reports, for every locale present,
sub-counts of total, ok, blocked, and other_error (exposed as `failed`)
recipients — but no not_started sub-count; it is a pure read of the
audience table. -/
theorem locale_breakdown_contract (rows : List Audience) (bot : Nat) :
    (∀ e ∈ localeStats rows bot,
       e.total = countLocale rows bot e.locale ∧
       e.ok = countLocaleStatus rows bot e.locale VerificationStatus.OK ∧
       e.blocked = countLocaleStatus rows bot e.locale VerificationStatus.BLOCKED ∧
       e.failed = countLocaleStatus rows bot e.locale VerificationStatus.OTHER_ERROR) ∧
    (∀ a ∈ rows, a.bot_id = bot → ∃ e ∈ localeStats rows bot, e.locale = a.locale) := by
  constructor
  · intro e he
    obtain ⟨l, _, rfl⟩ := List.mem_map.mp he
    have hfl : ∀ st : VerificationStatus,
        ((rows.filter fun a => a.bot_id == bot).filter fun a => a.locale == l).filter
            (fun a => decide (a.verification_status = st)) =
          rows.filter fun a =>
            a.bot_id == bot && a.locale == l && decide (a.verification_status = st) := by
      intro st
      rw [List.filter_filter, List.filter_filter]
      apply List.filter_congr
      intro a _
      cases h1 : (a.bot_id == bot) <;> cases h2 : (a.locale == l) <;>
        cases h3 : decide (a.verification_status = st) <;> rfl
    have hft : (rows.filter fun a => a.bot_id == bot).filter (fun a => a.locale == l) =
        rows.filter fun a => a.bot_id == bot && a.locale == l := by
      rw [List.filter_filter]
      apply List.filter_congr
      intro a _
      cases h1 : (a.bot_id == bot) <;> cases h2 : (a.locale == l) <;> rfl
    refine ⟨?_, ?_, ?_, ?_⟩
    · show ((rows.filter fun a => a.bot_id == bot).filter fun a => a.locale == l).length =
        countLocale rows bot l
      rw [hft]
      rfl
    · show (((rows.filter fun a => a.bot_id == bot).filter fun a => a.locale == l).filter
          fun a => decide (a.verification_status = VerificationStatus.OK)).length =
        countLocaleStatus rows bot l VerificationStatus.OK
      rw [hfl VerificationStatus.OK]
      rfl
    · show (((rows.filter fun a => a.bot_id == bot).filter fun a => a.locale == l).filter
          fun a => decide (a.verification_status = VerificationStatus.BLOCKED)).length =
        countLocaleStatus rows bot l VerificationStatus.BLOCKED
      rw [hfl VerificationStatus.BLOCKED]
      rfl
    · show (((rows.filter fun a => a.bot_id == bot).filter fun a => a.locale == l).filter
          fun a => decide (a.verification_status = VerificationStatus.OTHER_ERROR)).length =
        countLocaleStatus rows bot l VerificationStatus.OTHER_ERROR
      rw [hfl VerificationStatus.OTHER_ERROR]
      rfl
  · intro a ha hbot
    have hmine : a ∈ rows.filter fun x => x.bot_id == bot :=
      List.mem_filter.mpr ⟨ha, by simp [hbot]⟩
    have hloc : a.locale ∈ ((rows.filter fun x => x.bot_id == bot).map fun x => x.locale).dedup :=
      List.mem_dedup.mpr (List.mem_map_of_mem _ hmine)
    exact ⟨_, List.mem_map_of_mem _ hloc, rfl⟩

theorem locale_breakdown_contract_witness :
    ∃ e ∈ localeStats c9rows 1, e.locale =
      (⟨1, 11, "en", VerificationStatus.NOT_STARTED, none⟩ : Audience).locale :=
  (locale_breakdown_contract c9rows 1).2 ⟨1, 11, "en", VerificationStatus.NOT_STARTED, none⟩
    (by decide) rfl

/-- Claim C10: a CSV audience upload accepting at least one new recipient
for a bot with no verification run row creates the row with status FAILED,
recomputed `total_users` and `eta_seconds`, and all outcome counters zero
— so the subsequent status query reports FAILED rather than the distinct
no-run-yet answer NONE (which is what the query returns while no run row
exists). -/
theorem upload_creates_failed_run_row (rows : List Audience) (bot accepted : Nat)
    (hacc : accepted ≠ 0) :
    ∃ w, uploadRunRow rows bot accepted none = some w ∧
      w.status = VerificationRunStatus.FAILED ∧
      w.verified_users = 0 ∧ w.ok_count = 0 ∧ w.blocked_count = 0 ∧
      w.not_started_count = 0 ∧ w.other_error_count = 0 ∧
      w.total_users = (rows.filter fun a => a.bot_id == bot).length ∧
      w.eta_seconds = (rows.filter fun a => a.bot_id == bot).length / 15 ∧
      (∃ r, statusReport false (some w) rows bot = StatusResponse.report r ∧
        r.status = VerificationRunStatus.FAILED) ∧
      statusReport false none rows bot = StatusResponse.noRun := by
  have hbeq : (accepted == 0) = false := by
    simpa using hacc
  refine ⟨{ status := VerificationRunStatus.FAILED
            total_users := (rows.filter fun a => a.bot_id == bot).length
            verified_users := 0
            ok_count := 0
            blocked_count := 0
            not_started_count := 0
            other_error_count := 0
            started_at := some 0
            finished_at := none
            last_processed_tg_id := 0
            eta_seconds := (rows.filter fun a => a.bot_id == bot).length / 15 },
          ?_, rfl, rfl, rfl, rfl, rfl, rfl, rfl, rfl, ⟨_, rfl, rfl⟩, rfl⟩
  unfold uploadRunRow
  rw [hbeq]
  rfl

theorem upload_creates_failed_run_row_witness :
    ∃ w, uploadRunRow [⟨3, 21, "en", VerificationStatus.UNKNOWN, none⟩] 3 1 none = some w ∧
      w.status = VerificationRunStatus.FAILED ∧
      w.verified_users = 0 ∧ w.ok_count = 0 ∧ w.blocked_count = 0 ∧
      w.not_started_count = 0 ∧ w.other_error_count = 0 ∧
      w.total_users = (([⟨3, 21, "en", VerificationStatus.UNKNOWN, none⟩] : List Audience).filter
        fun a => a.bot_id == 3).length ∧
      w.eta_seconds = (([⟨3, 21, "en", VerificationStatus.UNKNOWN, none⟩] : List Audience).filter
        fun a => a.bot_id == 3).length / 15 ∧
      (∃ r, statusReport false (some w) [⟨3, 21, "en", VerificationStatus.UNKNOWN, none⟩] 3 =
        StatusResponse.report r ∧ r.status = VerificationRunStatus.FAILED) ∧
      statusReport false none [⟨3, 21, "en", VerificationStatus.UNKNOWN, none⟩] 3 =
        StatusResponse.noRun :=
  upload_creates_failed_run_row [⟨3, 21, "en", VerificationStatus.UNKNOWN, none⟩] 3 1
    (by decide)
